import Mathlib

/-!
Verification development for the helios telemetry monitoring and decision
pipeline (`src/api/app`).  The Python modules `safety_layer.py`,
`anomaly_detector.py` and `decision_engine.py` are shallowly embedded below:
float arithmetic is modelled by exact rational arithmetic (`ℚ`), timestamps
by rational numbers of seconds, Python `Optional` by `Option`, and the
`active_alerts` dictionary of the safety layer by one `Bool` flag per fixed
alert-type key.  Nondeterministic fields of the emitted records (uuid `id`,
wall-clock `timestamp`) and the free-prose message strings are elided; all
fields that the verified properties mention are kept.
-/

namespace Helios

/-! ## Thresholds (safety_layer.py, module constants) -/

def PRESSURE_LEAK_THRESHOLD : ℚ := 2
def RADIATION_SPIKE_THRESHOLD : ℚ := 1/10
def RADIATION_CRITICAL_THRESHOLD : ℚ := 1/2
def PRESSURE_CRITICAL_THRESHOLD : ℚ := 90

/-- The four fixed alert-type keys used in `SafetyLayer.active_alerts`. -/
inductive AlertType
  | pressure_leak
  | radiation_spike
  | radiation_critical
  | pressure_critical
deriving DecidableEq, Repr

/-! ## PressureHistory (safety_layer.py lines 22-59)

The history is the list of `(timestamp_seconds, pressure_kpa)` pairs in
arrival order (oldest first), exactly as `self.readings`. -/

/-- `PressureHistory.add_reading`: append the new pair and drop readings
older than `max_history_minutes` (5) minutes before `now`. -/
def add_reading (readings : List (ℚ × ℚ)) (now pressure_kpa : ℚ) : List (ℚ × ℚ) :=
  (readings ++ [(now, pressure_kpa)]).filter fun tv => decide (now - 5 * 60 ≤ tv.1)

/-- `PressureHistory.get_rate_of_change`: percentage change per minute
between the oldest and the newest reading; `none` with fewer than two
readings, zero elapsed time, or zero oldest pressure. -/
def get_rate_of_change (readings : List (ℚ × ℚ)) : Option ℚ :=
  if h : readings.length < 2 then none
  else
    let oldest := readings.head (by intro he; rw [he] at h; simp at h)
    let newest := readings.getLast (by intro he; rw [he] at h; simp at h)
    let time_diff := (newest.1 - oldest.1) / 60
    if time_diff = 0 then none
    else if oldest.2 = 0 then none
    else some ((((newest.2 - oldest.2) / oldest.2) * 100) / time_diff)

/-! ## RadiationHistory (safety_layer.py lines 61-90)

Only the radiation values are consulted by the detector, so the history is
the list of values in arrival order. -/

/-- `RadiationHistory.add_reading`, history part: append and keep only the
last `max_readings` (10) values. -/
def rad_add_reading (readings : List ℚ) (radiation_msv_hr : ℚ) : List ℚ :=
  let rs := readings ++ [radiation_msv_hr]
  if 10 < rs.length then rs.drop (rs.length - 10) else rs

/-- `RadiationHistory.add_reading`, baseline part: once at least 5 readings
exist, the baseline is the mean of the most recent 5; otherwise the old
baseline (initially `none`) is kept. -/
def rad_update_baseline (baseline : Option ℚ) (readings : List ℚ) : Option ℚ :=
  if 5 ≤ readings.length then
    let recent := readings.drop (readings.length - 5)
    some (recent.sum / (recent.length : ℚ))
  else baseline

/-- `RadiationHistory.is_spike`. -/
def is_spike (baseline : Option ℚ) (current : ℚ) : Bool :=
  match baseline with
  | none => false
  | some b => decide (b + RADIATION_SPIKE_THRESHOLD < current)

/-- `RadiationHistory.is_critical`. -/
def is_critical (current : ℚ) : Bool :=
  decide (RADIATION_CRITICAL_THRESHOLD ≤ current)

/-! ## SafetyLayer state and check_safety (safety_layer.py lines 102-258) -/

/-- The mutable state of a `SafetyLayer` instance relevant to hazard
detection.  Each `*_active` flag models membership of the corresponding
fixed key in the `active_alerts` dictionary. -/
structure SafetyState where
  pressure_readings : List (ℚ × ℚ) := []
  radiation_readings : List ℚ := []
  baseline : Option ℚ := none
  leak_active : Bool := false
  spike_active : Bool := false
  radiation_critical_active : Bool := false
  pressure_critical_active : Bool := false
deriving Repr, DecidableEq

/-- `SafetyLayer.__init__`: empty histories, no baseline, no active alerts. -/
def initial_state : SafetyState := {}

/-- `SafetyLayer._check_pressure`, acting on the leak-active flag given the
current rate of change; returns the new flag and the alert types emitted. -/
def check_pressure (leak_active : Bool) (rate : Option ℚ) : Bool × List AlertType :=
  match rate with
  | some r =>
    if r < -PRESSURE_LEAK_THRESHOLD then
      (true, if leak_active then [] else [AlertType.pressure_leak])
    else (false, [])
  | none => (false, [])

/-- `SafetyLayer._check_radiation`, acting on the spike/critical flags given
the updated baseline and the current reading; returns the new
`(spike_active, radiation_critical_active)` flags and the alerts emitted.
The branches mirror the `if / elif / elif` chain of the source. -/
def check_radiation (spike_active radiation_critical_active : Bool)
    (baseline : Option ℚ) (current : ℚ) : Bool × Bool × List AlertType :=
  if is_critical current then
    (spike_active, true,
      if radiation_critical_active then [] else [AlertType.radiation_critical])
  else if is_spike baseline current then
    (true, radiation_critical_active,
      if spike_active then [] else [AlertType.radiation_spike])
  else
    (false, radiation_critical_active, [])

/-- `SafetyLayer.check_safety`: update both histories, then run the pressure
leak check, the critical-pressure check and the radiation check, in source
order.  Returns the new state and the list of alert types emitted (each
emitted alert is paired in the source with one critical recommendation). -/
def check_safety (s : SafetyState) (now pressure_kpa radiation_msv_hr : ℚ) :
    SafetyState × List AlertType :=
  let pr := add_reading s.pressure_readings now pressure_kpa
  let rr := rad_add_reading s.radiation_readings radiation_msv_hr
  let bl := rad_update_baseline s.baseline rr
  let rate := get_rate_of_change pr
  let leak := check_pressure s.leak_active rate
  let pc_fire := decide (pressure_kpa < PRESSURE_CRITICAL_THRESHOLD)
  let pc_alerts : List AlertType :=
    if pc_fire && !s.pressure_critical_active then [AlertType.pressure_critical] else []
  let rad := check_radiation s.spike_active s.radiation_critical_active bl radiation_msv_hr
  ({ pressure_readings := pr
     radiation_readings := rr
     baseline := bl
     leak_active := leak.1
     spike_active := rad.1
     radiation_critical_active := rad.2.1
     pressure_critical_active := s.pressure_critical_active || pc_fire },
   leak.2 ++ pc_alerts ++ rad.2.2)

/-- Fold `check_safety` over a sequence of `(now, pressure, radiation)`
telemetry snapshots, as the periodic coordinator loop does. -/
def run_safety (s : SafetyState) (inputs : List (ℚ × ℚ × ℚ)) : SafetyState :=
  inputs.foldl (fun st i => (check_safety st i.1 i.2.1 i.2.2).1) s

/-! ## Safety-layer recommendations and approvals
(safety_layer.py lines 260-326, models.py lines 64-71) -/

/-- `models.Recommendation`: the pydantic model used by the safety layer.
Its `priority` field is a string ("low", "medium", "high").  The uuid `id`
and `timestamp` fields are elided. -/
structure SafetyRecommendation where
  priority : String
  category : String
  title : String
  description : String
  action_required : Bool := false
deriving Repr, DecidableEq

/-- One entry of `SafetyLayer.pending_approvals` (the dictionary stored
under the recommendation's uuid).  `timestamp` is in seconds. -/
structure Approval where
  action_id : String
  category : String
  title : String
  description : String
  timestamp : ℚ
  approved : Bool
  approved_by : Option String
  approved_at : Option ℚ
deriving Repr, DecidableEq

/-- `SafetyLayer._create_critical_recommendation`, returned value: a
`models.Recommendation` with the string priority "high" and
`action_required=True`. -/
def create_critical_recommendation (category title description : String) :
    SafetyRecommendation :=
  { priority := "high"
    category := category
    title := title
    description := description
    action_required := true }

/-- `SafetyLayer._create_critical_recommendation`, stored side effect: the
pending-approval record created alongside the recommendation. -/
def make_pending_approval (action_id category title description : String)
    (now : ℚ) : Approval :=
  { action_id := action_id
    category := category
    title := title
    description := description
    timestamp := now
    approved := false
    approved_by := none
    approved_at := none }

/-- In-place update of the entry stored under key `rid` in the
`pending_approvals` dictionary (keys are unique uuids, so updating the
first occurrence models the Python dict mutation). -/
def set_approval : List (String × Approval) → String → Approval → List (String × Approval)
  | [], _, _ => []
  | kv :: rest, rid, a =>
    if kv.1 = rid then (kv.1, a) :: rest else kv :: set_approval rest rid a

/-- `SafetyLayer.approve_action`: `False` and no change when the id is
unknown or already approved; otherwise set `approved`, `approved_by` and
`approved_at` and return `True`. -/
def approve_action (pending : List (String × Approval)) (rid approver : String)
    (now : ℚ) : Bool × List (String × Approval) :=
  match List.lookup rid pending with
  | none => (false, pending)
  | some a =>
    if a.approved then (false, pending)
    else (true, set_approval pending rid
      { a with approved := true, approved_by := some approver, approved_at := some now })

/-! ## Anomaly detector (anomaly_detector.py) -/

def Z_SCORE_THRESHOLD : ℚ := 5/2
def Z_SCORE_CRITICAL : ℚ := 7/2
def EWMA_ALPHA : ℚ := 3/10

/-- `models.AlertSeverity`. -/
inductive AlertSeverity
  | info
  | warning
  | critical
deriving DecidableEq, Repr

/-- `MetricStatistics`: the fields consulted by the anomaly detectors.
`min_value`/`max_value` (initialised to ±infinity in the source) and the
`ewma`/`last_value` fields are irrelevant to detection and elided. -/
structure MetricStatistics where
  mean : ℚ := 0
  std_dev : ℚ := 0
  sample_count : ℕ := 0
deriving Repr, DecidableEq

/-- `AnomalyAlert`: the fields of the emitted alert that the verified
properties mention (uuid `id`, `timestamp`, the evidence dictionary and the
prose message/recommendation strings are elided). -/
structure AnomalyAlert where
  metric : String
  severity : AlertSeverity
  current_value : ℚ
  z_score : ℚ
  confidence : ℚ
deriving Repr, DecidableEq

/-- The z-score as computed inside each detector:
`(value - stats.mean) / stats.std_dev if stats.std_dev > 0 else 0.0`. -/
def zscore (stats : MetricStatistics) (value : ℚ) : ℚ :=
  if 0 < stats.std_dev then (value - stats.mean) / stats.std_dev else 0

/-- `AnomalyDetector._detect_pressure_anomaly`. -/
def detect_pressure_anomaly (stats : MetricStatistics) (value : ℚ) :
    Option AnomalyAlert :=
  if stats.sample_count < 10 then none
  else if stats.std_dev = 0 then none
  else
    let z := zscore stats value
    let az := |z|
    if Z_SCORE_CRITICAL ≤ az then
      some { metric := "pressure", severity := .critical, current_value := value,
             z_score := z,
             confidence := min (99/100) (7/10 + (az - Z_SCORE_CRITICAL) * (1/10)) }
    else if Z_SCORE_THRESHOLD ≤ az then
      some { metric := "pressure", severity := .warning, current_value := value,
             z_score := z,
             confidence := min (95/100) (1/2 + (az - Z_SCORE_THRESHOLD) * (15/100)) }
    else none

/-- `AnomalyDetector._detect_radiation_anomaly`: both branches additionally
require `z_score > 0` (only spikes are flagged). -/
def detect_radiation_anomaly (stats : MetricStatistics) (value : ℚ) :
    Option AnomalyAlert :=
  if stats.sample_count < 10 then none
  else if stats.std_dev = 0 then none
  else
    let z := zscore stats value
    let az := |z|
    if Z_SCORE_CRITICAL ≤ az ∧ 0 < z then
      some { metric := "radiation", severity := .critical, current_value := value,
             z_score := z,
             confidence := min (99/100) (7/10 + (az - Z_SCORE_CRITICAL) * (1/10)) }
    else if Z_SCORE_THRESHOLD ≤ az ∧ 0 < z then
      some { metric := "radiation", severity := .warning, current_value := value,
             z_score := z,
             confidence := min (95/100) (1/2 + (az - Z_SCORE_THRESHOLD) * (15/100)) }
    else none

/-- `AnomalyDetector._detect_battery_anomaly`. -/
def detect_battery_anomaly (stats : MetricStatistics) (value : ℚ) :
    Option AnomalyAlert :=
  if stats.sample_count < 10 then none
  else if stats.std_dev = 0 then none
  else
    let z := zscore stats value
    let az := |z|
    if Z_SCORE_CRITICAL ≤ az then
      some { metric := "battery", severity := .critical, current_value := value,
             z_score := z,
             confidence := min (99/100) (7/10 + (az - Z_SCORE_CRITICAL) * (1/10)) }
    else if Z_SCORE_THRESHOLD ≤ az then
      some { metric := "battery", severity := .warning, current_value := value,
             z_score := z,
             confidence := min (95/100) (1/2 + (az - Z_SCORE_THRESHOLD) * (15/100)) }
    else none

/-! ## Decision engine (decision_engine.py) -/

/-- `models.SettlementState` (models.py lines 84-97), with the source's
default values. -/
structure SettlementState where
  o2_pct : ℚ := 21
  co2_ppm : ℚ := 400
  pressure_kpa : ℚ := 101325/1000
  temp_c : ℚ := 20
  humidity_pct : ℚ := 50
  solar_kw : ℚ := 1000
  battery_kwh : ℚ := 500
  load_kw : ℚ := 800
  crop_health_index : ℚ := 85
  radiation_msv_hr : ℚ := 2/100
  strain_index : ℚ := 1/2
deriving Repr, DecidableEq

/-- The thresholds of `LIFE_SUPPORT_THRESHOLDS` used by the oxygen
analysis. -/
def o2_min : ℚ := 20
def o2_optimal_min : ℚ := 205/10
def o2_optimal_max : ℚ := 215/10

/-- Python `int()` applied to a rational: truncation toward zero. -/
def int_trunc (q : ℚ) : ℤ :=
  if q < 0 then ⌈q⌉ else ⌊q⌋

/-- `decision_engine.calculate_priority` (lines 56-85): base 5, bumped by
the deviation bands, scaled by the impact multiplier and truncated with
`int()`, plus 2 when critical, clamped to [1,10].  Unknown impact strings
use multiplier 1.0 (`dict.get` default). -/
def calculate_priority (deviation_from_threshold : ℚ) (impact_level : String)
    (is_critical : Bool) : ℤ :=
  let base1 : ℤ := 5
  let base2 : ℤ :=
    if 20 < |deviation_from_threshold| then base1 + 3
    else if 10 < |deviation_from_threshold| then base1 + 2
    else if 5 < |deviation_from_threshold| then base1 + 1
    else base1
  let mult : ℚ :=
    if impact_level = "critical" then 2
    else if impact_level = "high" then 3/2
    else if impact_level = "medium" then 1
    else if impact_level = "low" then 1/2
    else 1
  let base3 : ℤ := int_trunc ((base2 : ℚ) * mult)
  let base4 : ℤ := if is_critical then base3 + 2 else base3
  min 10 (max 1 base4)

/-- `decision_engine.Recommendation` (dataclass, lines 40-54): the fields
the verified properties mention; its `priority` field is an integer.  The
uuid `id` and the prose `reasoning`/`estimated_effect` strings are
elided. -/
structure EngineRecommendation where
  priority : ℤ
  category : String
  action : String
  title : String
  description : String
  impact : String
  current_value : ℚ
  threshold_value : ℚ
  confidence : ℚ
deriving Repr, DecidableEq

/-- `DecisionEngine._analyze_oxygen` (lines 149-207). -/
def analyze_oxygen (state : SettlementState) : Option EngineRecommendation :=
  let o2 := state.o2_pct
  if o2 < o2_min then
    let deviation := o2_min - o2
    some { priority := calculate_priority deviation "critical" true
           category := "life_support"
           action := "INCREASE_O2_GENERATION"
           title := "Critical: Increase Oxygen Generation"
           description := "Oxygen level is below minimum safe threshold. Immediate action required."
           impact := "critical"
           current_value := o2
           threshold_value := o2_min
           confidence := 95/100 }
  else if o2 < o2_optimal_min then
    let deviation := o2_optimal_min - o2
    some { priority := calculate_priority deviation "high" false
           category := "life_support"
           action := "INCREASE_O2_GENERATION"
           title := "Increase Oxygen Generation"
           description := "Oxygen level is below optimal range."
           impact := "high"
           current_value := o2
           threshold_value := o2_optimal_min
           confidence := 85/100 }
  else if o2_optimal_max < o2 then
    let deviation := o2 - o2_optimal_max
    some { priority := calculate_priority deviation "medium" false
           category := "life_support"
           action := "REDUCE_O2_GENERATION"
           title := "Reduce Oxygen Generation"
           description := "Oxygen level is above optimal range."
           impact := "medium"
           current_value := o2
           threshold_value := o2_optimal_max
           confidence := 80/100 }
  else none

/-- Modelled from the spec (refinement comparison only): the priority
formula as worded in the specification — base 5 plus the 3/2/1 deviation
bump, multiplied by the impact factor and truncated to an integer, plus 2
if critical, clamped to [1,10]. -/
def calculate_priority_spec (d : ℚ) (impact_level : String) (is_critical : Bool) : ℤ :=
  let bump : ℤ := if 20 < |d| then 3 else if 10 < |d| then 2 else if 5 < |d| then 1 else 0
  let factor : ℚ :=
    if impact_level = "critical" then 2
    else if impact_level = "high" then 3/2
    else if impact_level = "medium" then 1
    else if impact_level = "low" then 1/2
    else 1
  min 10 (max 1 (int_trunc (((5 + bump : ℤ) : ℚ) * factor) + (if is_critical then 2 else 0)))

/-! ## Helper lemmas -/

theorem pressure_leak_not_mem_radiation (sa rc : Bool) (bl : Option ℚ) (cur : ℚ) :
    AlertType.pressure_leak ∉ (check_radiation sa rc bl cur).2.2 := by
  unfold check_radiation
  split_ifs <;> simp

theorem spike_of_check_radiation (sa rc : Bool) (bl : Option ℚ) (cur : ℚ) :
    (check_radiation sa rc bl cur).1 =
      ((is_critical cur && sa) || (!is_critical cur && is_spike bl cur)) := by
  unfold check_radiation
  cases hc : is_critical cur <;> cases hs : is_spike bl cur <;> simp [hc, hs]

theorem rc_of_check_radiation (sa rc : Bool) (bl : Option ℚ) (cur : ℚ) :
    (check_radiation sa rc bl cur).2.1 = (rc || is_critical cur) := by
  unfold check_radiation
  cases hc : is_critical cur <;> cases hs : is_spike bl cur <;> simp [hc, hs]

theorem check_safety_spec (s : SafetyState) (now p r : ℚ) :
    check_safety s now p r =
      (let pr := add_reading s.pressure_readings now p
       let rr := rad_add_reading s.radiation_readings r
       let bl := rad_update_baseline s.baseline rr
       let leak := check_pressure s.leak_active (get_rate_of_change pr)
       let pc_fire := decide (p < PRESSURE_CRITICAL_THRESHOLD)
       let rad := check_radiation s.spike_active s.radiation_critical_active bl r
       ({ pressure_readings := pr
          radiation_readings := rr
          baseline := bl
          leak_active := leak.1
          spike_active := rad.1
          radiation_critical_active := rad.2.1
          pressure_critical_active := s.pressure_critical_active || pc_fire },
        leak.2 ++
          (if pc_fire && !s.pressure_critical_active then [AlertType.pressure_critical] else []) ++
          rad.2.2)) := rfl

theorem pressure_leak_mem_iff (s : SafetyState) (now p r : ℚ) :
    AlertType.pressure_leak ∈ (check_safety s now p r).2 ↔
      AlertType.pressure_leak ∈
        (check_pressure s.leak_active
          (get_rate_of_change (add_reading s.pressure_readings now p))).2 := by
  rw [check_safety_spec]
  simp only [List.mem_append]
  constructor
  · rintro ((h | h) | h)
    · exact h
    · split at h <;> simp_all
    · exact absurd h (pressure_leak_not_mem_radiation _ _ _ _)
  · intro h
    exact Or.inl (Or.inl h)

/-! ## Claims -/

/-- C1 (counterexample).  The claim says every Active hazard transitions
back to Idle on the first reading that no longer satisfies its condition.
For RadiationCritical this fails: after a critical reading (0.6 mSv/hr)
activates the hazard, a follow-up reading of 0.1 mSv/hr — strictly below the
0.5 critical threshold — leaves RADIATION_CRITICAL in the active set,
because `check_safety` has no branch deleting it. -/
theorem c1_hazard_clearing_counterexample :
    (check_safety initial_state 0 100 (6/10)).1.radiation_critical_active = true
    ∧ ((1:ℚ)/10) < RADIATION_CRITICAL_THRESHOLD
    ∧ (check_safety (check_safety initial_state 0 100 (6/10)).1
        60 100 (1/10)).1.radiation_critical_active = true := by
  refine ⟨by with_unfolding_all rfl, ?_, by with_unfolding_all rfl⟩
  exact of_decide_eq_true (by with_unfolding_all rfl)

/-- C1 (amended).  Clearing behaviour of `check_safety`, per hazard: the
PressureLeak hazard clears on the first reading whose (post-update) rate is
undefined or ≥ -2.0; the RadiationSpike hazard clears on the first reading
that is both non-critical (< 0.5) and not a spike over the updated
baseline; the PressureCritical and RadiationCritical hazards never clear —
once Active they remain Active on every subsequent reading. -/
theorem c1_hazard_clearing_amended (s : SafetyState) (now p r : ℚ) :
    ((∀ rt, get_rate_of_change (add_reading s.pressure_readings now p) = some rt →
        -PRESSURE_LEAK_THRESHOLD ≤ rt) →
      (check_safety s now p r).1.leak_active = false)
    ∧ (is_critical r = false →
        is_spike (rad_update_baseline s.baseline (rad_add_reading s.radiation_readings r)) r
          = false →
        (check_safety s now p r).1.spike_active = false)
    ∧ (s.radiation_critical_active = true →
        (check_safety s now p r).1.radiation_critical_active = true)
    ∧ (s.pressure_critical_active = true →
        (check_safety s now p r).1.pressure_critical_active = true) := by
  rw [check_safety_spec]
  refine ⟨fun hrate => ?_, fun hc hs => ?_, fun hrc => ?_, fun hpc => ?_⟩
  · show (check_pressure s.leak_active
      (get_rate_of_change (add_reading s.pressure_readings now p))).1 = false
    cases hr : get_rate_of_change (add_reading s.pressure_readings now p) with
    | none => simp [check_pressure]
    | some rt =>
      have hge := hrate rt hr
      simp [check_pressure, not_lt.2 hge]
  · show (check_radiation s.spike_active s.radiation_critical_active
      (rad_update_baseline s.baseline (rad_add_reading s.radiation_readings r)) r).1 = false
    rw [spike_of_check_radiation]
    simp [hc, hs]
  · show (check_radiation s.spike_active s.radiation_critical_active
      (rad_update_baseline s.baseline (rad_add_reading s.radiation_readings r)) r).2.1 = true
    rw [rc_of_check_radiation]
    simp [hrc]
  · show (s.pressure_critical_active || decide (p < PRESSURE_CRITICAL_THRESHOLD)) = true
    simp [hpc]

/-- A fresh safety state in which both critical hazards are Active. -/
def both_critical_state : SafetyState :=
  { radiation_critical_active := true, pressure_critical_active := true }

/-- C1 (witness): the amended theorem applied to a state in which both
critical hazards are Active, on a reading (pressure 100 kPa, radiation 0)
that satisfies no hazard condition: the leak and spike hazards end Idle,
while both critical hazards remain Active. -/
theorem c1_hazard_clearing_amended_witness :
    ((check_safety both_critical_state 0 100 0).1.leak_active = false)
    ∧ ((check_safety both_critical_state 0 100 0).1.spike_active = false)
    ∧ ((check_safety both_critical_state 0 100 0).1.radiation_critical_active = true)
    ∧ ((check_safety both_critical_state 0 100 0).1.pressure_critical_active = true) := by
  have h := c1_hazard_clearing_amended both_critical_state 0 100 0
  have hrate : ∀ rt, get_rate_of_change
      (add_reading both_critical_state.pressure_readings 0 100) = some rt →
      -PRESSURE_LEAK_THRESHOLD ≤ rt := by
    intro rt hrt
    have hnone : get_rate_of_change
        (add_reading both_critical_state.pressure_readings 0 100) = none := by
      with_unfolding_all rfl
    rw [hnone] at hrt
    exact Option.noConfusion hrt
  exact ⟨h.1 hrate, h.2.1 (by with_unfolding_all rfl) (by with_unfolding_all rfl),
    h.2.2.1 rfl, h.2.2.2 rfl⟩

/-- C2 (counterexample).  The claim says RadiationSpike and
RadiationCritical are never Active simultaneously.  Feeding five baseline
readings of 0.2 mSv/hr, then a critical 0.6 mSv/hr (activating
RadiationCritical, which never clears), then 0.45 mSv/hr (non-critical, but
above the refreshed baseline 0.33 + 0.1) leaves both hazards Active at
once. -/
theorem c2_mutual_exclusion_counterexample :
    (run_safety initial_state
      [(0, 100, 2/10), (1, 100, 2/10), (2, 100, 2/10), (3, 100, 2/10), (4, 100, 2/10),
       (5, 100, 6/10), (6, 100, 45/100)]).spike_active = true
    ∧ (run_safety initial_state
      [(0, 100, 2/10), (1, 100, 2/10), (2, 100, 2/10), (3, 100, 2/10), (4, 100, 2/10),
       (5, 100, 6/10), (6, 100, 45/100)]).radiation_critical_active = true :=
  ⟨by with_unfolding_all rfl, by with_unfolding_all rfl⟩

/-- C2 (amended).  After any `check_safety` step, RadiationSpike is Active
iff either the current reading is non-critical (< 0.5) and exceeds the
updated baseline + 0.1, or the reading is critical (≥ 0.5) and the spike
was already Active (a critical reading freezes the spike flag); and
RadiationCritical is Active iff it was Active before or the reading is
critical — so the two hazards are not mutually exclusive. -/
theorem c2_spike_state_amended (s : SafetyState) (now p r : ℚ) :
    (check_safety s now p r).1.spike_active =
      ((is_critical r && s.spike_active) ||
        (!is_critical r &&
          is_spike (rad_update_baseline s.baseline (rad_add_reading s.radiation_readings r)) r))
    ∧ (check_safety s now p r).1.radiation_critical_active =
      (s.radiation_critical_active || is_critical r) := by
  rw [check_safety_spec]
  constructor
  · show (check_radiation s.spike_active s.radiation_critical_active
      (rad_update_baseline s.baseline (rad_add_reading s.radiation_readings r)) r).1 = _
    rw [spike_of_check_radiation]
  · show (check_radiation s.spike_active s.radiation_critical_active
      (rad_update_baseline s.baseline (rad_add_reading s.radiation_readings r)) r).2.1 = _
    rw [rc_of_check_radiation]

/-- C3 (counterexample).  The claim says every emitted Recommendation,
including those from the SafetyMonitor's critical path, has an integer
priority in [1,10].  The safety layer's
`_create_critical_recommendation` builds a `models.Recommendation` whose
priority is the string "high" — not a numeral at all. -/
theorem c3_priority_range_counterexample :
    (create_critical_recommendation "pressure" "Isolate Compartments"
      "Pressure leak detected").priority = "high"
    ∧ "high".toInt? = none :=
  ⟨rfl, by with_unfolding_all rfl⟩

/-- C3 (amended).  Every DecisionEngine priority (`calculate_priority`) is
an integer in [1,10]; the SafetyMonitor's critical-recommendation path
instead emits a `models.Recommendation` whose priority is always the string
"high". -/
theorem c3_priority_range_amended :
    (∀ (d : ℚ) (impact : String) (c : Bool),
        1 ≤ calculate_priority d impact c ∧ calculate_priority d impact c ≤ 10)
    ∧ ∀ category title description,
        (create_critical_recommendation category title description).priority = "high" := by
  refine ⟨fun d impact c => ⟨?_, ?_⟩, fun _ _ _ => rfl⟩
  · exact le_min (by norm_num) (le_max_left _ _)
  · exact min_le_left _ _

/-- C4.  Pressure-leak detection: (i) with at least two samples in the
window whose oldest and newest entries have distinct timestamps and a
nonzero oldest pressure, the rate equals
((newest - oldest)/oldest)·100 divided by the elapsed minutes, using only
that pair; (ii) a PRESSURE_LEAK alert is emitted by `check_safety` iff the
hazard was Idle and the post-update rate is < -2.0; (iii) the hazard is
Idle after any reading whose rate is ≥ -2.0 or undefined. -/
theorem c4_pressure_leak (s : SafetyState) (now p r t0 p0 t1 p1 : ℚ)
    (readings : List (ℚ × ℚ)) :
    (readings.head? = some (t0, p0) → readings.getLast? = some (t1, p1) →
      2 ≤ readings.length → t1 ≠ t0 → p0 ≠ 0 →
      get_rate_of_change readings = some ((((p1 - p0) / p0) * 100) / ((t1 - t0) / 60)))
    ∧ (AlertType.pressure_leak ∈ (check_safety s now p r).2 ↔
        s.leak_active = false ∧
        ∃ rt, get_rate_of_change (add_reading s.pressure_readings now p) = some rt ∧
          rt < -PRESSURE_LEAK_THRESHOLD)
    ∧ ((∀ rt, get_rate_of_change (add_reading s.pressure_readings now p) = some rt →
          -PRESSURE_LEAK_THRESHOLD ≤ rt) →
        (check_safety s now p r).1.leak_active = false) := by
  refine ⟨fun hhead hlast hlen ht hp => ?_, ?_, fun hrate => ?_⟩
  · cases readings with
    | nil => simp at hhead
    | cons hd rs =>
      cases rs with
      | nil => simp at hlen
      | cons y ys =>
        have ha : hd = (t0, p0) := by simpa using hhead
        subst ha
        have hlast' : ((t0, p0) :: y :: ys).getLast (List.cons_ne_nil _ _) = (t1, p1) := by
          rwa [List.getLast?_eq_getLast _ (List.cons_ne_nil _ _), Option.some_inj] at hlast
        have htd : (t1 - t0) / 60 ≠ 0 :=
          div_ne_zero (sub_ne_zero.2 ht) (by norm_num)
        unfold get_rate_of_change
        rw [dif_neg (not_lt.2 hlen)]
        simp only [List.head_cons, hlast']
        simp [htd, hp]
  · rw [pressure_leak_mem_iff]
    cases hr : get_rate_of_change (add_reading s.pressure_readings now p) with
    | none => simp [check_pressure]
    | some rt =>
      by_cases hlt : rt < -PRESSURE_LEAK_THRESHOLD
      · cases hla : s.leak_active <;>
          simp [check_pressure, hlt, hla, hr]
      · simp only [check_pressure, if_neg hlt]
        simp [hlt]
  · rw [check_safety_spec]
    show (check_pressure s.leak_active
      (get_rate_of_change (add_reading s.pressure_readings now p))).1 = false
    cases hr : get_rate_of_change (add_reading s.pressure_readings now p) with
    | none => simp [check_pressure]
    | some rt =>
      have hge := hrate rt hr
      simp [check_pressure, not_lt.2 hge]

/-- C4 (witness): with readings at times 0 s and 60 s of 100 and 90 kPa the
rate is ((90-100)/100·100)/1 = -10 %/min; starting from a state holding
only the time-0 sample, the 60 s reading emits a PRESSURE_LEAK alert; and
with a flat 100 kPa follow-up (rate 0) an Active leak hazard clears. -/
theorem c4_pressure_leak_witness :
    get_rate_of_change [(0, 100), (60, 90)]
        = some ((((90 - 100) / 100) * 100) / ((60 - 0) / 60))
    ∧ AlertType.pressure_leak ∈
        (check_safety { pressure_readings := [(0, 100)] } 60 90 0).2
    ∧ (check_safety { pressure_readings := [(0, 100)], leak_active := true }
        60 100 0).1.leak_active = false := by
  refine ⟨?_, ?_, ?_⟩
  · exact (c4_pressure_leak initial_state 0 0 0 0 100 60 90 [(0, 100), (60, 90)]).1
      rfl rfl (by norm_num) (by norm_num) (by norm_num)
  · refine (c4_pressure_leak { pressure_readings := [(0, 100)] } 60 90 0
      0 0 0 0 []).2.1.mpr ⟨rfl, -10, ?_, ?_⟩
    · with_unfolding_all rfl
    · exact of_decide_eq_true (by with_unfolding_all rfl)
  · refine (c4_pressure_leak { pressure_readings := [(0, 100)], leak_active := true }
      60 100 0 0 0 0 0 []).2.2 ?_
    intro rt hrt
    have h0 : get_rate_of_change
        (add_reading ({ pressure_readings := [(0, 100)], leak_active := true } :
          SafetyState).pressure_readings 60 100) = some 0 := by
      with_unfolding_all rfl
    rw [h0, Option.some_inj] at hrt
    rw [← hrt]
    norm_num [PRESSURE_LEAK_THRESHOLD]

/-- C5.  For every metric and sample value, when the metric's sample count
is below 10 or its standard deviation is 0, every anomaly detector returns
`none` (no alert), regardless of the value. -/
theorem c5_insufficient_data (stats : MetricStatistics) (v : ℚ)
    (h : stats.sample_count < 10 ∨ stats.std_dev = 0) :
    detect_pressure_anomaly stats v = none
    ∧ detect_radiation_anomaly stats v = none
    ∧ detect_battery_anomaly stats v = none := by
  by_cases hc : stats.sample_count < 10
  · refine ⟨?_, ?_, ?_⟩ <;>
      simp [detect_pressure_anomaly, detect_radiation_anomaly, detect_battery_anomaly, hc]
  · have hs : stats.std_dev = 0 := h.resolve_left hc
    refine ⟨?_, ?_, ?_⟩ <;>
      simp [detect_pressure_anomaly, detect_radiation_anomaly, detect_battery_anomaly, hc, hs]

/-- C5 (witness): with 3 samples a value of 1000000 yields no alert from
any detector. -/
theorem c5_insufficient_data_witness :
    detect_pressure_anomaly { mean := 0, std_dev := 5, sample_count := 3 } 1000000 = none
    ∧ detect_radiation_anomaly { mean := 0, std_dev := 5, sample_count := 3 } 1000000 = none
    ∧ detect_battery_anomaly { mean := 0, std_dev := 5, sample_count := 3 } 1000000 = none :=
  c5_insufficient_data { mean := 0, std_dev := 5, sample_count := 3 } 1000000
    (Or.inl (by norm_num))

/-- C6.  Directionality: a radiation anomaly is never emitted when the
z-score is ≤ 0 (however large its magnitude), while the pressure and
battery detectors emit for z on either side whenever the preconditions hold
and |z| reaches the 2.5 warning threshold. -/
theorem c6_radiation_directionality (stats : MetricStatistics) (v : ℚ) :
    (zscore stats v ≤ 0 → detect_radiation_anomaly stats v = none)
    ∧ (10 ≤ stats.sample_count → stats.std_dev ≠ 0 →
        zscore stats v ≤ -Z_SCORE_THRESHOLD →
        (detect_pressure_anomaly stats v).isSome = true)
    ∧ (10 ≤ stats.sample_count → stats.std_dev ≠ 0 →
        Z_SCORE_THRESHOLD ≤ zscore stats v →
        (detect_pressure_anomaly stats v).isSome = true)
    ∧ (10 ≤ stats.sample_count → stats.std_dev ≠ 0 →
        zscore stats v ≤ -Z_SCORE_THRESHOLD →
        (detect_battery_anomaly stats v).isSome = true)
    ∧ (10 ≤ stats.sample_count → stats.std_dev ≠ 0 →
        Z_SCORE_THRESHOLD ≤ zscore stats v →
        (detect_battery_anomaly stats v).isSome = true) := by
  have hZ : (0:ℚ) < Z_SCORE_THRESHOLD := by norm_num [Z_SCORE_THRESHOLD]
  refine ⟨fun hz => ?_, fun hc hs hz => ?_, fun hc hs hz => ?_,
    fun hc hs hz => ?_, fun hc hs hz => ?_⟩
  · have hnot : ¬ (0 < zscore stats v) := not_lt.2 hz
    by_cases hc10 : stats.sample_count < 10
    · simp [detect_radiation_anomaly, hc10]
    · by_cases hsd : stats.std_dev = 0
      · simp [detect_radiation_anomaly, hc10, hsd]
      · simp [detect_radiation_anomaly, hc10, hsd, hnot]
  · have habs : Z_SCORE_THRESHOLD ≤ |zscore stats v| :=
      le_abs.2 (Or.inr (by linarith))
    simp only [detect_pressure_anomaly]
    rw [if_neg (not_lt.2 hc), if_neg hs]
    split_ifs <;> simp_all
  · have habs : Z_SCORE_THRESHOLD ≤ |zscore stats v| :=
      le_abs.2 (Or.inl hz)
    simp only [detect_pressure_anomaly]
    rw [if_neg (not_lt.2 hc), if_neg hs]
    split_ifs <;> simp_all
  · have habs : Z_SCORE_THRESHOLD ≤ |zscore stats v| :=
      le_abs.2 (Or.inr (by linarith))
    simp only [detect_battery_anomaly]
    rw [if_neg (not_lt.2 hc), if_neg hs]
    split_ifs <;> simp_all
  · have habs : Z_SCORE_THRESHOLD ≤ |zscore stats v| :=
      le_abs.2 (Or.inl hz)
    simp only [detect_battery_anomaly]
    rw [if_neg (not_lt.2 hc), if_neg hs]
    split_ifs <;> simp_all

/-- C6 (witness): with mean 0, std 1 and 10 samples, the z-score of a
reading v is v itself; at v = -4 (z = -4, |z| = 4 ≥ 3.5) radiation emits
nothing while pressure and battery emit, and at v = 4 pressure and battery
also emit. -/
theorem c6_radiation_directionality_witness :
    detect_radiation_anomaly { mean := 0, std_dev := 1, sample_count := 10 } (-4) = none
    ∧ (detect_pressure_anomaly { mean := 0, std_dev := 1, sample_count := 10 } (-4)).isSome = true
    ∧ (detect_pressure_anomaly { mean := 0, std_dev := 1, sample_count := 10 } 4).isSome = true
    ∧ (detect_battery_anomaly { mean := 0, std_dev := 1, sample_count := 10 } (-4)).isSome = true
    ∧ (detect_battery_anomaly { mean := 0, std_dev := 1, sample_count := 10 } 4).isSome = true := by
  have hlo := c6_radiation_directionality { mean := 0, std_dev := 1, sample_count := 10 } (-4)
  have hhi := c6_radiation_directionality { mean := 0, std_dev := 1, sample_count := 10 } 4
  have hz4 : zscore { mean := 0, std_dev := 1, sample_count := 10 } (-4) ≤ -Z_SCORE_THRESHOLD :=
    of_decide_eq_true (by with_unfolding_all rfl)
  have hz4' : Z_SCORE_THRESHOLD ≤ zscore { mean := 0, std_dev := 1, sample_count := 10 } 4 :=
    of_decide_eq_true (by with_unfolding_all rfl)
  exact ⟨hlo.1 (le_trans hz4 (by norm_num [Z_SCORE_THRESHOLD])),
    hlo.2.1 (by norm_num) (by norm_num) hz4,
    hhi.2.2.1 (by norm_num) (by norm_num) hz4',
    hlo.2.2.2.1 (by norm_num) (by norm_num) hz4,
    hhi.2.2.2.2 (by norm_num) (by norm_num) hz4'⟩

/-- Looking up the updated key after `set_approval` returns the new record,
provided the key was present. -/
theorem lookup_set_approval_self (pending : List (String × Approval)) (rid : String)
    (a b : Approval) (h : List.lookup rid pending = some b) :
    List.lookup rid (set_approval pending rid a) = some a := by
  induction pending with
  | nil => simp [List.lookup] at h
  | cons kv rest ih =>
    by_cases hk : kv.1 = rid
    · simp [set_approval, hk, List.lookup]
    · have hbeq : (rid == kv.1) = false := by
        simp [beq_iff_eq]
        exact fun he => hk he.symm
      simp only [List.lookup, hbeq] at h
      simp only [set_approval, if_neg hk, List.lookup, hbeq]
      exact ih h

/-- Looking up any other key after `set_approval` is unchanged. -/
theorem lookup_set_approval_ne (pending : List (String × Approval)) (rid k : String)
    (a : Approval) (h : k ≠ rid) :
    List.lookup k (set_approval pending rid a) = List.lookup k pending := by
  induction pending with
  | nil => simp [set_approval]
  | cons kv rest ih =>
    by_cases hk : kv.1 = rid
    · have hbeq : (k == kv.1) = false := by
        simp [beq_iff_eq]
        exact fun he => h (he.trans hk)
      simp only [set_approval, if_pos hk, List.lookup, hbeq]
    · simp only [set_approval, if_neg hk, List.lookup]
      cases hbeq : (k == kv.1) with
      | true => rfl
      | false => exact ih

/-- C7.  `approve_action` returns false and leaves the approval store
entirely unchanged when the recommendation id is unknown or the record is
already approved; on success it returns true, the stored record becomes
approved with the given approver and timestamp, and all other records are
untouched — so `approved` transitions false to true exactly once. -/
theorem c7_approve_once (pending : List (String × Approval)) (rid approver : String)
    (now : ℚ) :
    (List.lookup rid pending = none →
      approve_action pending rid approver now = (false, pending))
    ∧ (∀ a, List.lookup rid pending = some a → a.approved = true →
        approve_action pending rid approver now = (false, pending))
    ∧ (∀ a, List.lookup rid pending = some a → a.approved = false →
        (approve_action pending rid approver now).1 = true
        ∧ List.lookup rid (approve_action pending rid approver now).2 =
            some { a with approved := true, approved_by := some approver,
                          approved_at := some now }
        ∧ ∀ k, k ≠ rid →
            List.lookup k (approve_action pending rid approver now).2 =
              List.lookup k pending) := by
  refine ⟨fun hn => ?_, fun a ha happ => ?_, fun a ha happ => ?_⟩
  · simp only [approve_action, hn]
  · simp [approve_action, ha, happ]
  · have hcond : ¬(a.approved = true) := by rw [happ]; exact Bool.false_ne_true
    simp only [approve_action, ha, if_neg hcond]
    exact ⟨trivial, lookup_set_approval_self pending rid _ a ha,
      fun k hk => lookup_set_approval_ne pending rid k _ hk⟩

/-- C7 (witness): on a store holding one unapproved record under "r1":
an unknown id "r2" fails with the store unchanged; approving "r1" succeeds,
stores approver "cdr" at time 5 and leaves "r2" absent; and a second
approval of an already-approved "r1" fails with the store unchanged. -/
theorem c7_approve_once_witness :
    (approve_action [("r1", make_pending_approval "ISOLATE_COMPARTMENTS" "pressure" "t" "d" 0)]
        "r2" "cdr" 5 =
      (false, [("r1", make_pending_approval "ISOLATE_COMPARTMENTS" "pressure" "t" "d" 0)]))
    ∧ (approve_action [("r1", make_pending_approval "ISOLATE_COMPARTMENTS" "pressure" "t" "d" 0)]
        "r1" "cdr" 5).1 = true
    ∧ List.lookup "r1"
        (approve_action [("r1", make_pending_approval "ISOLATE_COMPARTMENTS" "pressure" "t" "d" 0)]
          "r1" "cdr" 5).2 =
        some { make_pending_approval "ISOLATE_COMPARTMENTS" "pressure" "t" "d" 0 with
                approved := true, approved_by := some "cdr", approved_at := some 5 }
    ∧ List.lookup "r2"
        (approve_action [("r1", make_pending_approval "ISOLATE_COMPARTMENTS" "pressure" "t" "d" 0)]
          "r1" "cdr" 5).2 =
        List.lookup "r2" [("r1", make_pending_approval "ISOLATE_COMPARTMENTS" "pressure" "t" "d" 0)]
    ∧ approve_action
        [("r1", { make_pending_approval "ISOLATE_COMPARTMENTS" "pressure" "t" "d" 0 with
                    approved := true })] "r1" "cdr" 9 =
      (false, [("r1", { make_pending_approval "ISOLATE_COMPARTMENTS" "pressure" "t" "d" 0 with
                    approved := true })]) := by
  have h1 := c7_approve_once
    [("r1", make_pending_approval "ISOLATE_COMPARTMENTS" "pressure" "t" "d" 0)] "r2" "cdr" 5
  have h2 := c7_approve_once
    [("r1", make_pending_approval "ISOLATE_COMPARTMENTS" "pressure" "t" "d" 0)] "r1" "cdr" 5
  have h3 := c7_approve_once
    [("r1", { make_pending_approval "ISOLATE_COMPARTMENTS" "pressure" "t" "d" 0 with
                approved := true })] "r1" "cdr" 9
  have hs := h2.2.2 (make_pending_approval "ISOLATE_COMPARTMENTS" "pressure" "t" "d" 0)
    (by with_unfolding_all rfl) rfl
  exact ⟨h1.1 (by with_unfolding_all rfl),
    hs.1, hs.2.1, hs.2.2 "r2" (by simp),
    h3.2.1 _ (by with_unfolding_all rfl) rfl⟩

/-- C8.  The DecisionEngine priority agrees with the spec formula
(deviation bump, impact factor, integer truncation, critical bonus, clamp
to [1,10]) for every deviation, impact string and critical flag; the
O2 = 19.0 scenario yields an INCREASE_O2_GENERATION recommendation of
critical impact with priority min(10, (5+0)·2+2) = 10; and for a
critical-impact critical-flag recommendation the priority is 10 for every
deviation, however large — never higher. -/
theorem c8_priority_formula :
    (∀ (d : ℚ) (impact : String) (c : Bool),
        calculate_priority d impact c = calculate_priority_spec d impact c)
    ∧ ((analyze_oxygen { o2_pct := 19 }).map
          (fun rec => (rec.action, rec.impact, rec.priority)) =
        some ("INCREASE_O2_GENERATION", "critical", 10))
    ∧ (∀ d : ℚ, calculate_priority d "critical" true = 10) := by
  refine ⟨fun d impact c => ?_, by with_unfolding_all rfl, fun d => ?_⟩
  · by_cases h1 : 20 < |d| <;> by_cases h2 : 10 < |d| <;> by_cases h3 : 5 < |d| <;>
      cases c <;>
        simp [calculate_priority, calculate_priority_spec, h1, h2, h3]
  · by_cases h1 : 20 < |d| <;> by_cases h2 : 10 < |d| <;> by_cases h3 : 5 < |d| <;>
      simp only [calculate_priority, h1, h2, h3, if_pos, if_neg, if_true, if_false,
        reduceIte] <;>
      with_unfolding_all rfl

/-- C9.  Whenever an anomaly alert is emitted, its severity and confidence
are a function of |z| alone: |z| ≥ 3.5 gives CRITICAL with confidence
min(0.99, 0.7+(|z|-3.5)·0.1), otherwise (|z| ≥ 2.5) WARNING with
confidence min(0.95, 0.5+(|z|-2.5)·0.15); and no detector emits anything
when |z| < 2.5. -/
theorem c9_severity_confidence (stats : MetricStatistics) (v : ℚ) :
    (∀ a, detect_pressure_anomaly stats v = some a →
        (Z_SCORE_CRITICAL ≤ |zscore stats v| →
          a.severity = AlertSeverity.critical ∧
          a.confidence = min (99/100) (7/10 + (|zscore stats v| - Z_SCORE_CRITICAL) * (1/10)))
        ∧ (|zscore stats v| < Z_SCORE_CRITICAL →
          a.severity = AlertSeverity.warning ∧
          a.confidence = min (95/100) (1/2 + (|zscore stats v| - Z_SCORE_THRESHOLD) * (15/100))))
    ∧ (|zscore stats v| < Z_SCORE_THRESHOLD → detect_pressure_anomaly stats v = none)
    ∧ (∀ a, detect_radiation_anomaly stats v = some a →
        (Z_SCORE_CRITICAL ≤ |zscore stats v| →
          a.severity = AlertSeverity.critical ∧
          a.confidence = min (99/100) (7/10 + (|zscore stats v| - Z_SCORE_CRITICAL) * (1/10)))
        ∧ (|zscore stats v| < Z_SCORE_CRITICAL →
          a.severity = AlertSeverity.warning ∧
          a.confidence = min (95/100) (1/2 + (|zscore stats v| - Z_SCORE_THRESHOLD) * (15/100))))
    ∧ (|zscore stats v| < Z_SCORE_THRESHOLD → detect_radiation_anomaly stats v = none)
    ∧ (∀ a, detect_battery_anomaly stats v = some a →
        (Z_SCORE_CRITICAL ≤ |zscore stats v| →
          a.severity = AlertSeverity.critical ∧
          a.confidence = min (99/100) (7/10 + (|zscore stats v| - Z_SCORE_CRITICAL) * (1/10)))
        ∧ (|zscore stats v| < Z_SCORE_CRITICAL →
          a.severity = AlertSeverity.warning ∧
          a.confidence = min (95/100) (1/2 + (|zscore stats v| - Z_SCORE_THRESHOLD) * (15/100))))
    ∧ (|zscore stats v| < Z_SCORE_THRESHOLD → detect_battery_anomaly stats v = none) := by
  have hZ : Z_SCORE_THRESHOLD < Z_SCORE_CRITICAL := by
    norm_num [Z_SCORE_THRESHOLD, Z_SCORE_CRITICAL]
  refine ⟨fun a ha => ?_, fun hlt => ?_, fun a ha => ?_, fun hlt => ?_,
    fun a ha => ?_, fun hlt => ?_⟩
  · simp only [detect_pressure_anomaly] at ha
    split_ifs at ha with h1 h2 h3 h4 <;>
      first
      | exact Option.noConfusion ha
      | (obtain rfl := Option.some_inj.mp ha
         exact ⟨fun _ => ⟨rfl, rfl⟩, fun habs => absurd h3 (not_le.2 habs)⟩)
      | (obtain rfl := Option.some_inj.mp ha
         exact ⟨fun habs => absurd habs (not_le.2 (lt_of_not_le h3)),
           fun _ => ⟨rfl, rfl⟩⟩)
  · simp only [detect_pressure_anomaly]
    split_ifs with h1 h2 h3 h4 <;>
      first
      | rfl
      | exact absurd h3 (not_le.2 (lt_trans hlt hZ))
      | exact absurd h4 (not_le.2 hlt)
  · simp only [detect_radiation_anomaly] at ha
    split_ifs at ha with h1 h2 h3 h4 <;>
      first
      | exact Option.noConfusion ha
      | (obtain rfl := Option.some_inj.mp ha
         exact ⟨fun _ => ⟨rfl, rfl⟩, fun habs => absurd h3.1 (not_le.2 habs)⟩)
      | (obtain rfl := Option.some_inj.mp ha
         exact ⟨fun habs => absurd (And.intro habs h4.2) h3,
           fun _ => ⟨rfl, rfl⟩⟩)
  · simp only [detect_radiation_anomaly]
    split_ifs with h1 h2 h3 h4 <;>
      first
      | rfl
      | exact absurd h3.1 (not_le.2 (lt_trans hlt hZ))
      | exact absurd h4.1 (not_le.2 hlt)
  · simp only [detect_battery_anomaly] at ha
    split_ifs at ha with h1 h2 h3 h4 <;>
      first
      | exact Option.noConfusion ha
      | (obtain rfl := Option.some_inj.mp ha
         exact ⟨fun _ => ⟨rfl, rfl⟩, fun habs => absurd h3 (not_le.2 habs)⟩)
      | (obtain rfl := Option.some_inj.mp ha
         exact ⟨fun habs => absurd habs (not_le.2 (lt_of_not_le h3)),
           fun _ => ⟨rfl, rfl⟩⟩)
  · simp only [detect_battery_anomaly]
    split_ifs with h1 h2 h3 h4 <;>
      first
      | rfl
      | exact absurd h3 (not_le.2 (lt_trans hlt hZ))
      | exact absurd h4 (not_le.2 hlt)

/-- C9 (witness): with mean 0, std 1 and 10 samples, v = 3 has |z| = 3
(warning band): the emitted pressure alert is WARNING with confidence
min(0.95, 0.5+(3-2.5)·0.15); and v = 1 (|z| = 1 < 2.5) yields no alert. -/
theorem c9_severity_confidence_witness :
    (∃ a, detect_pressure_anomaly { mean := 0, std_dev := 1, sample_count := 10 } 3 = some a
      ∧ a.severity = AlertSeverity.warning
      ∧ a.confidence = min (95/100)
          (1/2 + (|zscore { mean := 0, std_dev := 1, sample_count := 10 } 3|
            - Z_SCORE_THRESHOLD) * (15/100)))
    ∧ detect_pressure_anomaly { mean := 0, std_dev := 1, sample_count := 10 } 1 = none := by
  have h3 := c9_severity_confidence { mean := 0, std_dev := 1, sample_count := 10 } 3
  have h1 := c9_severity_confidence { mean := 0, std_dev := 1, sample_count := 10 } 1
  have hs : detect_pressure_anomaly { mean := 0, std_dev := 1, sample_count := 10 } 3 =
      some { metric := "pressure", severity := AlertSeverity.warning, current_value := 3,
             z_score := 3,
             confidence := min (95/100) (1/2 + ((3:ℚ) - Z_SCORE_THRESHOLD) * (15/100)) } := by
    with_unfolding_all rfl
  have hband := (h3.1 _ hs).2 (of_decide_eq_true (by with_unfolding_all rfl))
  exact ⟨⟨_, hs, hband.1, hband.2⟩,
    h1.2.1 (of_decide_eq_true (by with_unfolding_all rfl))⟩

/-- C10.  `get_rate_of_change` is total and never divides by zero: it
returns `none` when fewer than two readings are present, when the oldest
and newest readings share a timestamp, and when the oldest pressure is 0;
and whenever the rate is `none`, `check_safety` emits no PRESSURE_LEAK
alert and leaves the PressureLeak hazard Idle (clearing it if Active). -/
theorem c10_rate_totality (readings : List (ℚ × ℚ)) (s : SafetyState) (now p r : ℚ) :
    (readings.length < 2 → get_rate_of_change readings = none)
    ∧ (∀ t0 p0 t1 p1, readings.head? = some (t0, p0) → readings.getLast? = some (t1, p1) →
        t1 = t0 → get_rate_of_change readings = none)
    ∧ (∀ t0 p0, readings.head? = some (t0, p0) → p0 = 0 →
        get_rate_of_change readings = none)
    ∧ (get_rate_of_change (add_reading s.pressure_readings now p) = none →
        AlertType.pressure_leak ∉ (check_safety s now p r).2
        ∧ (check_safety s now p r).1.leak_active = false) := by
  refine ⟨fun hlen => ?_, fun t0 p0 t1 p1 hhead hlast ht => ?_,
    fun t0 p0 hhead hp0 => ?_, fun hnone => ?_⟩
  · unfold get_rate_of_change
    rw [dif_pos hlen]
  · unfold get_rate_of_change
    by_cases hlen : readings.length < 2
    · rw [dif_pos hlen]
    · rw [dif_neg hlen]
      have hne : readings ≠ [] := by
        intro he; rw [he] at hlen; simp at hlen
      have hh : readings.head hne = (t0, p0) := by
        rw [List.head?_eq_head hne] at hhead
        exact Option.some_inj.mp hhead
      have hl : readings.getLast hne = (t1, p1) := by
        rwa [List.getLast?_eq_getLast _ hne, Option.some_inj] at hlast
      simp only [hh, hl, ht]
      simp
  · unfold get_rate_of_change
    by_cases hlen : readings.length < 2
    · rw [dif_pos hlen]
    · rw [dif_neg hlen]
      have hne : readings ≠ [] := by
        intro he; rw [he] at hlen; simp at hlen
      have hh : readings.head hne = (t0, p0) := by
        rw [List.head?_eq_head hne] at hhead
        exact Option.some_inj.mp hhead
      by_cases htd : ((readings.getLast hne).1 - (readings.head hne).1) / 60 = 0
      · simp only [htd]
        simp
      · rw [if_neg htd]
        simp only [hh, hp0]
        simp
  · constructor
    · rw [pressure_leak_mem_iff, hnone]
      simp [check_pressure]
    · rw [check_safety_spec]
      show (check_pressure s.leak_active
        (get_rate_of_change (add_reading s.pressure_readings now p))).1 = false
      rw [hnone]
      simp [check_pressure]

/-- C10 (witness): a single reading gives rate `none`; two readings with
the same timestamp give `none`; a zero oldest pressure gives `none`; and
from a state with an Active leak and a one-sample window (rate `none`) the
step emits no PRESSURE_LEAK and leaves the hazard Idle. -/
theorem c10_rate_totality_witness :
    get_rate_of_change [(0, 1)] = none
    ∧ get_rate_of_change [(5, 100), (5, 90)] = none
    ∧ get_rate_of_change [(0, 0), (60, 90)] = none
    ∧ AlertType.pressure_leak ∉
        (check_safety { leak_active := true } 0 100 0).2
    ∧ (check_safety { leak_active := true } 0 100 0).1.leak_active = false := by
  have h1 := (c10_rate_totality [(0, 1)] initial_state 0 0 0).1 (by norm_num)
  have h2 := (c10_rate_totality [(5, 100), (5, 90)] initial_state 0 0 0).2.1
    5 100 5 90 rfl (by with_unfolding_all rfl) rfl
  have h3 := (c10_rate_totality [(0, 0), (60, 90)] initial_state 0 0 0).2.2.1
    0 0 rfl rfl
  have h4 := (c10_rate_totality [] { leak_active := true } 0 100 0).2.2.2
    (by with_unfolding_all rfl)
  exact ⟨h1, h2, h3, h4.1, h4.2⟩

end Helios
